import Mathlib

/-!
# Verification of the xdg-desktop-portal-phosh thumbnailer pipeline

Shallow embedding of `src/src/thumbnailer/application.c` (the `PtApplication`
queue-based thumbnailing service).

The C code is single-threaded GLib code: every mutation of the service state
happens on the main loop, and concurrency exists only as outstanding
asynchronous operations whose completion callbacks are serialized back onto
the main loop.  We model this as a state machine:

* the fields of `struct _PtApplication` that the pipeline uses become fields
  of `St` (`queue`, `cancel`, `len`, `thumbnails`);
* every outstanding asynchronous operation (`g_file_query_info_async`,
  `gnome_desktop_thumbnail_factory_generate_thumbnail_async`, ...) becomes a
  pending `AsyncOp`, tagged with the `GCancellable` it was given (tokens are
  natural numbers; `self->cancel == NULL` is `Option.none`);
* a scheduler action `Act.dispatch i` fires the `i`-th pending completion,
  running the corresponding `on_*_ready` callback;
* the three D-Bus handlers (`handle_thumbnail_directory`,
  `handle_thumbnail_files`, `handle_stop_thumbnailing`) are the remaining
  actions.

Cancellation model: GLib `GCancellable` cancellation is cooperative.  The code
relies on a cancelled operation completing with `G_IO_ERROR_CANCELLED`, so we
model exactly that: a completion whose cancellable token is no longer the
active one (every handler cancels the previous token before replacing or
clearing it) delivers a failure whose error matches `G_IO_ERROR_CANCELLED`;
an operation started with a `NULL` cancellable can never be cancelled.

The external collaborators (`GnomeDesktopThumbnailFactory`, the `GFile`
metadata query and the directory enumerator) are modelled as an oracle `Env`
of pure functions, one per backend entry point used by the code.

Ghost instrumentation: the fields `pops`, `terminals` and `admit1Calls` of
`St` count, respectively, the candidates popped off the queue, the terminal
pipeline outcomes, and the `process_queue (1)` calls made by completion
callbacks.  They are write-only counters: no definition reads them, so the
modelled behaviour does not depend on them.
-/

/-- `#define CONCURRENCY_LIMIT 3` (application.c line 11). -/
def CONCURRENCY_LIMIT : Nat := 3

/-- `#define THUMBNAILING_DONE_BATCH 10` (application.c line 12). -/
def THUMBNAILING_DONE_BATCH : Nat := 10

/-- Reply delivered on a D-Bus method invocation: either the `complete_*`
call (accepted) or `g_dbus_method_invocation_return_error`. -/
inductive Reply where
  | accepted
  | errorReply
  deriving Repr, DecidableEq

/-- Severity chosen by `log_error` (application.c lines 49-63). -/
inductive LogLevel where
  | debug
  | warning
  deriving Repr, DecidableEq

/-- Call site of a `log_error` invocation. -/
inductive LogSite where
  | querySite
  | generateSite
  | saveSite
  | createFailedSite
  | enumerateSite
  | nextFilesSite
  | closeSite
  deriving Repr, DecidableEq

/-- The C `FileInfo` struct (application.c lines 123-127). -/
structure FileInfoC where
  uri : String
  mimeType : String
  mtime : Nat
  deriving Repr, DecidableEq

/-- An outstanding asynchronous operation, tagged with the cancellable token
it was started with (`none` models a `NULL` `GCancellable`).  One constructor
per `*_async` call in application.c; the completion callback of each is the
matching `on_*_ready` function. -/
inductive AsyncOp where
  | queryInfo (uri : String) (tok : Option Nat)
  | generate (info : FileInfoC) (tok : Option Nat)
  | save (info : FileInfoC) (tok : Option Nat)
  | createFailed (info : FileInfoC) (tok : Option Nat)
  | enumChildren (dirUri : String) (inv : Nat) (tok : Option Nat)
  | nextFiles (dirUri : String) (pos : Nat) (tok : Option Nat)
  | closeEnum (dirUri : String) (tok : Option Nat)
  deriving Repr, DecidableEq

/-- Attributes returned by the `g_file_query_info_async` metadata query. -/
structure FileAttrs where
  queryOk : Bool
  mimeType : String
  mtime : Nat

/-- Oracle for the external collaborators: the thumbnail factory, the file
metadata query and the directory enumerator.  One pure function per backend
entry point used by application.c. -/
structure Env where
  /-- outcome of `g_file_query_info_async` for a URI -/
  attrs : String → FileAttrs
  /-- `gnome_desktop_thumbnail_factory_lookup` at decision-gate time -/
  lookup : String → Nat → Option String
  /-- `gnome_desktop_thumbnail_factory_has_valid_failed_thumbnail` -/
  hasValidFailed : String → Nat → Bool
  /-- `gnome_desktop_thumbnail_factory_can_thumbnail` -/
  canThumbnail : String → String → Nat → Bool
  /-- whether `generate_thumbnail_async` succeeds for (uri, mime type) -/
  generateOk : String → String → Bool
  /-- whether `save_thumbnail_async` succeeds for (uri, mtime) -/
  saveOk : String → Nat → Bool
  /-- `factory_lookup` re-queried after a successful save (the saved path) -/
  savedPath : String → Nat → String
  /-- whether `create_failed_thumbnail_async` succeeds -/
  createFailedOk : String → Nat → Bool
  /-- whether `g_file_enumerate_children_async` can open the directory -/
  openOk : String → Bool
  /-- the directory's immediate children (names) -/
  children : String → List String
  /-- whether the `next_files_async` call at position `pos` fails -/
  nextErr : String → Nat → Bool

/-- The modelled service state: the pipeline-relevant fields of
`struct _PtApplication` plus the pending asynchronous operations and the
observable outputs (events, logs, method replies).  `pops`, `terminals` and
`admit1Calls` are ghost counters (see module docstring). -/
structure St where
  /-- `self->queue` as a list of file URIs (head = front) -/
  queue : List String
  /-- `self->cancel`: the active cancellable token, `none` when `NULL` -/
  cancel : Option Nat
  /-- next fresh cancellable token -/
  nextTok : Nat
  /-- `self->len` -/
  len : Nat
  /-- `self->thumbnails` dict entries (uri, thumbnail path) -/
  thumbnails : List (String × String)
  /-- outstanding asynchronous operations -/
  ops : List AsyncOp
  /-- emitted `ThumbnailingDone` events: (mapping, batch size) -/
  events : List (List (String × String) × Nat)
  /-- `log_error` calls made so far -/
  logs : List (LogSite × LogLevel)
  /-- replies delivered to method invocations: (invocation id, reply) -/
  replies : List (Nat × Reply)
  /-- next fresh invocation id -/
  nextInv : Nat
  /-- ghost: candidates popped from the queue -/
  pops : Nat
  /-- ghost: terminal pipeline outcomes reached -/
  terminals : Nat
  /-- ghost: `process_queue (1)` calls made by completion callbacks -/
  admit1Calls : Nat
  deriving Repr

/-- Whether a completion made with cancellable `tok` is delivered cancelled:
the token is a real cancellable and is no longer the active one (every
handler cancels the previous token before replacing or dropping it).  A
`NULL` cancellable (`none`) can never be cancelled. -/
def opCancelled (s : St) : Option Nat → Bool
  | none => false
  | some t => if s.cancel = some t then false else true

/-- `g_variant_dict_insert`: inserting overwrites any entry for the key. -/
def dictInsert (l : List (String × String)) (k v : String) : List (String × String) :=
  l.filter (fun p => p.1 != k) ++ [(k, v)]

/-- `process_queue` (application.c lines 299-313): pop up to `size` files off
the queue, starting a `g_file_query_info_async` (tagged with the current
`self->cancel`) for each; stop silently when the queue runs dry. -/
def processQueue : Nat → St → St
  | 0, s => s
  | n + 1, s =>
    match s.queue with
    | [] => s
    | uri :: rest =>
      processQueue n { s with
        queue := rest
        pops := s.pops + 1
        ops := s.ops ++ [AsyncOp.queryInfo uri s.cancel] }

/-- A terminal pipeline outcome: bump the ghost counters and run the
`process_queue (1)` call that every completion callback ends with. -/
def terminalAdmit (s : St) : St :=
  processQueue 1 { s with terminals := s.terminals + 1, admit1Calls := s.admit1Calls + 1 }

/-- `emit_thumbnailing_done` (application.c lines 139-156): return without
emitting if the batch is below `THUMBNAILING_DONE_BATCH` and the queue is
non-empty; otherwise emit the accumulated dict and reset the batch. -/
def emitThumbnailingDone (s : St) : St :=
  if s.len < THUMBNAILING_DONE_BATCH ∧ s.queue.length ≠ 0 then s
  else { s with
    events := s.events ++ [(s.thumbnails, s.len)]
    len := 0
    thumbnails := [] }

/-- `start_thumbnailing_file` (application.c lines 235-272): the decision
gate.  Checks, in order: cached thumbnail lookup, valid failed-thumbnail
marker, `can_thumbnail`; the first hit skips the candidate (freeing it and
running `process_queue (1)`); otherwise start `generate_thumbnail_async`
tagged with the current `self->cancel`. -/
def startThumbnailingFile (env : Env) (s : St) (info : FileInfoC) : St :=
  match env.lookup info.uri info.mtime with
  | some _ => terminalAdmit s
  | none =>
    if env.hasValidFailed info.uri info.mtime then
      terminalAdmit s
    else if !env.canThumbnail info.uri info.mimeType info.mtime then
      terminalAdmit s
    else
      { s with ops := s.ops ++ [AsyncOp.generate info s.cancel] }

/-- `on_query_info_ready` (application.c lines 275-296): on failure log and
run `process_queue (1)`; on success build the `FileInfo` and run the decision
gate. -/
def onQueryInfoReady (env : Env) (s : St) (uri : String) (tok : Option Nat) : St :=
  let cancelled := opCancelled s tok
  if cancelled || !(env.attrs uri).queryOk then
    terminalAdmit { s with
      logs := s.logs ++ [(LogSite.querySite, if cancelled then LogLevel.debug else LogLevel.warning)] }
  else
    startThumbnailingFile env s
      { uri := uri, mimeType := (env.attrs uri).mimeType, mtime := (env.attrs uri).mtime }

/-- `on_generate_thumbnail_ready` (application.c lines 208-232): on failure
log via `log_error` and start `create_failed_thumbnail_async` (tagged with
the *current* `self->cancel`); on success start `save_thumbnail_async`. -/
def onGenerateThumbnailReady (env : Env) (s : St) (info : FileInfoC) (tok : Option Nat) : St :=
  let cancelled := opCancelled s tok
  if cancelled || !env.generateOk info.uri info.mimeType then
    { s with
      logs := s.logs ++ [(LogSite.generateSite, if cancelled then LogLevel.debug else LogLevel.warning)]
      ops := s.ops ++ [AsyncOp.createFailed info s.cancel] }
  else
    { s with ops := s.ops ++ [AsyncOp.save info s.cancel] }

/-- `on_save_thumbnail_ready` (application.c lines 159-185): on failure log;
on success re-init the dict if the batch is empty, insert the saved path,
bump `self->len` and run `emit_thumbnailing_done`.  Either way free the
`FileInfo` and run `process_queue (1)`. -/
def onSaveThumbnailReady (env : Env) (s : St) (info : FileInfoC) (tok : Option Nat) : St :=
  let cancelled := opCancelled s tok
  if cancelled || !env.saveOk info.uri info.mtime then
    terminalAdmit { s with
      logs := s.logs ++ [(LogSite.saveSite, if cancelled then LogLevel.debug else LogLevel.warning)] }
  else
    let d := if s.len = 0 then [] else s.thumbnails
    terminalAdmit (emitThumbnailingDone { s with
      thumbnails := dictInsert d info.uri (env.savedPath info.uri info.mtime)
      len := s.len + 1 })

/-- `on_create_failed_thumbnail_ready` (application.c lines 188-205): log on
failure, then free the `FileInfo` and run `process_queue (1)`. -/
def onCreateFailedThumbnailReady (env : Env) (s : St) (info : FileInfoC) (tok : Option Nat) : St :=
  let cancelled := opCancelled s tok
  if cancelled || !env.createFailedOk info.uri info.mtime then
    terminalAdmit { s with
      logs := s.logs ++ [(LogSite.createFailedSite, if cancelled then LogLevel.debug else LogLevel.warning)] }
  else
    terminalAdmit s

/-- URI of a child produced by `g_file_enumerator_get_child`. -/
def childUri (dirUri name : String) : String := dirUri ++ "/" ++ name

/-- `on_enumerate_children_ready` (application.c lines 398-419): if opening
the enumerator failed, log and return the error on the invocation; otherwise
start the first `next_files_async` and complete the invocation. -/
def onEnumerateChildrenReady (env : Env) (s : St) (dirUri : String) (inv : Nat)
    (tok : Option Nat) : St :=
  let cancelled := opCancelled s tok
  if cancelled || !env.openOk dirUri then
    { s with
      logs := s.logs ++ [(LogSite.enumerateSite, if cancelled then LogLevel.debug else LogLevel.warning)]
      replies := s.replies ++ [(inv, Reply.errorReply)] }
  else
    { s with
      ops := s.ops ++ [AsyncOp.nextFiles dirUri 0 s.cancel]
      replies := s.replies ++ [(inv, Reply.accepted)] }

/-- `on_next_files_ready` (application.c lines 364-395): on error log, close
the enumerator and clear the queue; on a file push it to the queue and ask
for the next one; on end of listing close the enumerator and run
`process_queue (CONCURRENCY_LIMIT)`. -/
def onNextFilesReady (env : Env) (s : St) (dirUri : String) (pos : Nat)
    (tok : Option Nat) : St :=
  let cancelled := opCancelled s tok
  if cancelled || env.nextErr dirUri pos then
    { s with
      logs := s.logs ++ [(LogSite.nextFilesSite, if cancelled then LogLevel.debug else LogLevel.warning)]
      ops := s.ops ++ [AsyncOp.closeEnum dirUri s.cancel]
      queue := [] }
  else
    match (env.children dirUri)[pos]? with
    | some name =>
      { s with
        queue := s.queue ++ [childUri dirUri name]
        ops := s.ops ++ [AsyncOp.nextFiles dirUri (pos + 1) s.cancel] }
    | none =>
      processQueue CONCURRENCY_LIMIT
        { s with ops := s.ops ++ [AsyncOp.closeEnum dirUri s.cancel] }

/-- `on_enumerator_close_ready` (application.c lines 350-361): log on
failure, free the handle. -/
def onEnumeratorCloseReady (s : St) (tok : Option Nat) : St :=
  let cancelled := opCancelled s tok
  if cancelled then
    { s with logs := s.logs ++ [(LogSite.closeSite, LogLevel.debug)] }
  else s

/-- `handle_stop_thumbnailing` (application.c lines 316-331): clear the
queue, cancel and drop `self->cancel` (no fresh cancellable is created), and
complete the invocation. -/
def handleStopThumbnailing (s : St) : St :=
  { s with
    queue := []
    cancel := none
    replies := s.replies ++ [(s.nextInv, Reply.accepted)]
    nextInv := s.nextInv + 1 }

/-- `handle_thumbnail_directory` (application.c lines 422-446): clear the
queue, cancel the previous cancellable and activate a fresh one, then start
`g_file_enumerate_children_async`; the reply is delivered later by
`on_enumerate_children_ready`. -/
def handleThumbnailDirectory (s : St) (dirUri : String) : St :=
  { s with
    queue := []
    cancel := some s.nextTok
    nextTok := s.nextTok + 1
    ops := s.ops ++ [AsyncOp.enumChildren dirUri s.nextInv (some s.nextTok)]
    nextInv := s.nextInv + 1 }

/-- `handle_thumbnail_files` (application.c lines 449-473): clear the queue,
cancel the previous cancellable and activate a fresh one, push all given
URIs, run `process_queue (CONCURRENCY_LIMIT)` and complete the invocation. -/
def handleThumbnailFiles (s : St) (uris : List String) : St :=
  let s1 := { s with queue := uris, cancel := some s.nextTok, nextTok := s.nextTok + 1 }
  let s2 := processQueue CONCURRENCY_LIMIT s1
  { s2 with replies := s2.replies ++ [(s.nextInv, Reply.accepted)], nextInv := s.nextInv + 1 }

/-- Route a fired completion to its callback. -/
def dispatchOp (env : Env) (s : St) : AsyncOp → St
  | AsyncOp.queryInfo uri tok => onQueryInfoReady env s uri tok
  | AsyncOp.generate info tok => onGenerateThumbnailReady env s info tok
  | AsyncOp.save info tok => onSaveThumbnailReady env s info tok
  | AsyncOp.createFailed info tok => onCreateFailedThumbnailReady env s info tok
  | AsyncOp.enumChildren d inv tok => onEnumerateChildrenReady env s d inv tok
  | AsyncOp.nextFiles d pos tok => onNextFilesReady env s d pos tok
  | AsyncOp.closeEnum _ tok => onEnumeratorCloseReady s tok

/-- Actions driving the service: the three D-Bus methods, plus the main loop
dispatching the `i`-th outstanding completion. -/
inductive Act where
  | thumbnailDirectory (dirUri : String)
  | thumbnailFiles (uris : List String)
  | stopThumbnailing
  | dispatch (i : Nat)
  deriving Repr, DecidableEq

/-- One step of the service. -/
def stepAct (env : Env) (s : St) : Act → St
  | Act.thumbnailDirectory d => handleThumbnailDirectory s d
  | Act.thumbnailFiles us => handleThumbnailFiles s us
  | Act.stopThumbnailing => handleStopThumbnailing s
  | Act.dispatch i =>
    match s.ops[i]? with
    | none => s
    | some op => dispatchOp env { s with ops := s.ops.eraseIdx i } op

/-- Run a sequence of actions. -/
def run (env : Env) (acts : List Act) (s : St) : St :=
  acts.foldl (stepAct env) s

/-- The freshly started service: empty queue, no cancellable, empty batch. -/
def init : St :=
  { queue := [], cancel := none, nextTok := 0, len := 0, thumbnails := [], ops := []
    events := [], logs := [], replies := [], nextInv := 0
    pops := 0, terminals := 0, admit1Calls := 0 }

/-- Whether an outstanding operation is part of a per-candidate pipeline
(metadata query, generate, save or record-failure), as opposed to the
directory enumeration machinery. -/
def isPipelineOp : AsyncOp → Bool
  | AsyncOp.queryInfo _ _ => true
  | AsyncOp.generate _ _ => true
  | AsyncOp.save _ _ => true
  | AsyncOp.createFailed _ _ => true
  | _ => false

/-- Whether an outstanding operation is a `generate_thumbnail_async` call. -/
def isGenerateOp : AsyncOp → Bool
  | AsyncOp.generate _ _ => true
  | _ => false

/-- The spec's `ActiveSlotSet.size()`: number of in-flight per-candidate
pipelines. -/
def inflight (s : St) : Nat := s.ops.countP isPipelineOp

/-- The cancellable token an outstanding operation was started with. -/
def opTok : AsyncOp → Option Nat
  | AsyncOp.queryInfo _ tok => tok
  | AsyncOp.generate _ tok => tok
  | AsyncOp.save _ tok => tok
  | AsyncOp.createFailed _ tok => tok
  | AsyncOp.enumChildren _ _ tok => tok
  | AsyncOp.nextFiles _ _ tok => tok
  | AsyncOp.closeEnum _ tok => tok

/-- Outcome of the decision gate of `start_thumbnailing_file`, read off the
same branch structure. -/
inductive GateOutcome where
  | skipCached
  | skipFailed
  | skipUnsupported
  | proceed
  deriving Repr, DecidableEq

/-- The decision gate's verdict for a candidate. -/
def decisionGate (env : Env) (info : FileInfoC) : GateOutcome :=
  match env.lookup info.uri info.mtime with
  | some _ => GateOutcome.skipCached
  | none =>
    if env.hasValidFailed info.uri info.mtime then GateOutcome.skipFailed
    else if !env.canThumbnail info.uri info.mimeType info.mtime then GateOutcome.skipUnsupported
    else GateOutcome.proceed

/-- Slot conservation: completion callbacks have made exactly one
`process_queue (1)` call per terminal outcome, and every popped candidate is
either still in flight or has reached exactly one terminal outcome. -/
def conserved (s : St) : Prop :=
  s.admit1Calls = s.terminals ∧ s.terminals + inflight s = s.pops

/-- All outstanding operations are per-candidate pipelines (no directory
enumeration machinery outstanding). -/
def pipelineOnly (s : St) : Prop := ∀ op ∈ s.ops, isPipelineOp op = true

/-- The invariant backing the concurrency cap: at most `CONCURRENCY_LIMIT`
pipelines in flight and nothing but pipelines outstanding. -/
def capInv (s : St) : Prop := inflight s ≤ CONCURRENCY_LIMIT ∧ pipelineOnly s

/-! ## Concrete environments and traces -/

/-- Everything-succeeds backend: no cached thumbnails, no failure markers,
every file thumbnailable, all generates and saves succeed. -/
def envA : Env :=
  { attrs := fun _ => { queryOk := true, mimeType := "image/png", mtime := 1 }
    lookup := fun _ _ => none
    hasValidFailed := fun _ _ => false
    canThumbnail := fun _ _ _ => true
    generateOk := fun _ _ => true
    saveOk := fun _ _ => true
    savedPath := fun u _ => "t:" ++ u
    createFailedOk := fun _ _ => true
    openOk := fun _ => true
    children := fun _ => []
    nextErr := fun _ _ => false }

/-- Two directories: `dirA` with one child, `dirB` with four. -/
def envD : Env :=
  { envA with children := fun d => if d = "dirA" then ["a1"] else ["b1", "b2", "b3", "b4"] }

/-- A directory whose second `next_files` call fails. -/
def envE : Env :=
  { envA with children := fun _ => ["c1", "c2"], nextErr := fun _ p => p == 1 }

/-- A backend whose directory open always fails. -/
def envBad : Env :=
  { envA with openOk := fun _ => false }

/-- A backend whose generate step always fails. -/
def envGen : Env :=
  { envA with generateOk := fun _ _ => false }

/-- Backend exercising every decision-gate branch: `cached` has a valid
thumbnail, `marked` a valid failure marker, `nothumb` is unsupported. -/
def envW : Env :=
  { envA with
    lookup := fun u _ => if u = "cached" then some "p" else none
    hasValidFailed := fun u _ => u == "marked"
    canThumbnail := fun u _ _ => u != "nothumb" }

/-- Two `ThumbnailFiles` requests back to back, then the three completions
of the first request fire (each cancelled, each running `process_queue (1)`
against the second request's queue). -/
def trC2 : List Act :=
  [Act.thumbnailFiles ["a", "b", "c"],
   Act.thumbnailFiles ["d", "e", "f", "g", "h", "i"],
   Act.dispatch 0, Act.dispatch 0, Act.dispatch 0]

/-- 25 distinct candidate URIs. -/
def uris25 : List String := (List.range 25).map (fun i => "f" ++ toString i)

/-- A `ThumbnailFiles` request for 25 candidates followed by dispatching
completions in FIFO order until everything drains (extra dispatches on an
empty completion list are no-ops). -/
def trC3 : List Act := Act.thumbnailFiles uris25 :: List.replicate 100 (Act.dispatch 0)

/-- `ThumbnailDirectory` issued twice in succession: the first request's
enumeration finishes and pops its only child, then the second request's
enumeration finishes and pops three of its four children.  The first
request's metadata query is still outstanding at index 1. -/
def trC1pre : List Act :=
  [Act.thumbnailDirectory "dirA",
   Act.dispatch 0, Act.dispatch 0, Act.dispatch 0,
   Act.thumbnailDirectory "dirB",
   Act.dispatch 2, Act.dispatch 2, Act.dispatch 2, Act.dispatch 2, Act.dispatch 2,
   Act.dispatch 2]

/-- The state just before the first request's stale metadata completion
fires. -/
def sC1 : St := run envD trC1pre init

/-- The state after the stale completion fires. -/
def sC1after : St := run envD (trC1pre ++ [Act.dispatch 1]) init

/-- One pending metadata query from a first request, then an empty second
request that supersedes its token. -/
def sC1w : St := run envA [Act.thumbnailFiles ["a"], Act.thumbnailFiles []] init

/-- `ThumbnailDirectory` on a directory that opens fine but whose
enumeration fails at the second `next_files` call. -/
def trC6 : List Act :=
  [Act.thumbnailDirectory "D", Act.dispatch 0, Act.dispatch 0, Act.dispatch 0]

/-- Five candidates; the first completes fully (one buffered save), then a
new `ThumbnailFiles` request for `x` arrives and completes fully. -/
def trC9 : List Act :=
  [Act.thumbnailFiles ["a", "b", "c", "d", "e"],
   Act.dispatch 0, Act.dispatch 2, Act.dispatch 2,
   Act.thumbnailFiles ["x"],
   Act.dispatch 3, Act.dispatch 3, Act.dispatch 3]

/-! ## Basic frame lemmas -/

theorem processQueue_field {β : Type} (f : St → β)
    (hf : ∀ (s : St) (u : String) (rest : List String),
      f { s with queue := rest, pops := s.pops + 1,
                 ops := s.ops ++ [AsyncOp.queryInfo u s.cancel] } = f s) :
    ∀ (n : Nat) (s : St), f (processQueue n s) = f s := by
  intro n
  induction n with
  | zero => intro s; simp [processQueue]
  | succ n ih =>
    intro s
    cases hq : s.queue with
    | nil => simp [processQueue, hq]
    | cons u rest =>
      have hstep : processQueue (n + 1) s =
          processQueue n { s with queue := rest, pops := s.pops + 1,
                                  ops := s.ops ++ [AsyncOp.queryInfo u s.cancel] } := by
        simp [processQueue, hq]
      rw [hstep, ih, hf s u rest]

theorem processQueue_cancel (n : Nat) (s : St) : (processQueue n s).cancel = s.cancel :=
  processQueue_field St.cancel (fun _ _ _ => rfl) n s

theorem processQueue_len (n : Nat) (s : St) : (processQueue n s).len = s.len :=
  processQueue_field St.len (fun _ _ _ => rfl) n s

theorem processQueue_thumbnails (n : Nat) (s : St) :
    (processQueue n s).thumbnails = s.thumbnails :=
  processQueue_field St.thumbnails (fun _ _ _ => rfl) n s

theorem processQueue_events (n : Nat) (s : St) : (processQueue n s).events = s.events :=
  processQueue_field St.events (fun _ _ _ => rfl) n s

theorem processQueue_logs (n : Nat) (s : St) : (processQueue n s).logs = s.logs :=
  processQueue_field St.logs (fun _ _ _ => rfl) n s

theorem processQueue_replies (n : Nat) (s : St) : (processQueue n s).replies = s.replies :=
  processQueue_field St.replies (fun _ _ _ => rfl) n s

theorem processQueue_terminals (n : Nat) (s : St) :
    (processQueue n s).terminals = s.terminals :=
  processQueue_field St.terminals (fun _ _ _ => rfl) n s

theorem processQueue_admit1Calls (n : Nat) (s : St) :
    (processQueue n s).admit1Calls = s.admit1Calls :=
  processQueue_field St.admit1Calls (fun _ _ _ => rfl) n s

/-- Popping candidates conserves pops + in-flight pipelines. -/
theorem processQueue_balance (n : Nat) (s : St) :
    (processQueue n s).pops + inflight s = s.pops + inflight (processQueue n s) := by
  induction n generalizing s with
  | zero => simp [processQueue]
  | succ n ih =>
    cases hq : s.queue with
    | nil => simp [processQueue, hq]
    | cons u rest =>
      have hstep : processQueue (n + 1) s =
          processQueue n { s with queue := rest, pops := s.pops + 1,
                                  ops := s.ops ++ [AsyncOp.queryInfo u s.cancel] } := by
        simp [processQueue, hq]
      rw [hstep]
      have h := ih { s with queue := rest, pops := s.pops + 1,
                            ops := s.ops ++ [AsyncOp.queryInfo u s.cancel] }
      simp only [inflight, List.countP_append] at h ⊢
      simp [isPipelineOp] at h
      omega

/-- `process_queue` starts at most `n` new pipelines. -/
theorem inflight_processQueue_le (n : Nat) (s : St) :
    inflight (processQueue n s) ≤ inflight s + n := by
  induction n generalizing s with
  | zero => simp [processQueue]
  | succ n ih =>
    cases hq : s.queue with
    | nil => simp [processQueue, hq]
    | cons u rest =>
      have hstep : processQueue (n + 1) s =
          processQueue n { s with queue := rest, pops := s.pops + 1,
                                  ops := s.ops ++ [AsyncOp.queryInfo u s.cancel] } := by
        simp [processQueue, hq]
      rw [hstep]
      have h := ih { s with queue := rest, pops := s.pops + 1,
                            ops := s.ops ++ [AsyncOp.queryInfo u s.cancel] }
      simp only [inflight, List.countP_append] at h ⊢
      simp [isPipelineOp] at h
      omega

/-- `process_queue` only ever starts pipeline operations. -/
theorem processQueue_pipelineOnly (n : Nat) (s : St)
    (h : ∀ op ∈ s.ops, isPipelineOp op = true) :
    ∀ op ∈ (processQueue n s).ops, isPipelineOp op = true := by
  induction n generalizing s with
  | zero => simpa [processQueue] using h
  | succ n ih =>
    cases hq : s.queue with
    | nil => simpa [processQueue, hq] using h
    | cons u rest =>
      have hstep : processQueue (n + 1) s =
          processQueue n { s with queue := rest, pops := s.pops + 1,
                                  ops := s.ops ++ [AsyncOp.queryInfo u s.cancel] } := by
        simp [processQueue, hq]
      rw [hstep]
      apply ih
      intro op hop
      simp only [List.mem_append, List.mem_singleton] at hop
      rcases hop with h1 | h1
      · exact h op h1
      · subst h1; rfl

/-- `process_queue` never starts a `generate` operation. -/
theorem processQueue_generateCount (n : Nat) (s : St) :
    (processQueue n s).ops.countP isGenerateOp = s.ops.countP isGenerateOp := by
  induction n generalizing s with
  | zero => simp [processQueue]
  | succ n ih =>
    cases hq : s.queue with
    | nil => simp [processQueue, hq]
    | cons u rest =>
      have hstep : processQueue (n + 1) s =
          processQueue n { s with queue := rest, pops := s.pops + 1,
                                  ops := s.ops ++ [AsyncOp.queryInfo u s.cancel] } := by
        simp [processQueue, hq]
      rw [hstep, ih]
      simp [List.countP_append, isGenerateOp]

theorem countP_eraseIdx {α : Type} (p : α → Bool) :
    ∀ (l : List α) (i : Nat) (a : α), l[i]? = some a →
      l.countP p = (l.eraseIdx i).countP p + (if p a then 1 else 0) := by
  intro l
  induction l with
  | nil => intro i a h; simp at h
  | cons x xs ih =>
    intro i a h
    cases i with
    | zero =>
      simp only [List.getElem?_cons_zero, Option.some.injEq] at h
      subst h
      simp [List.eraseIdx, List.countP_cons]
    | succ j =>
      simp only [List.getElem?_cons_succ] at h
      have := ih j a h
      simp [List.eraseIdx, List.countP_cons]
      omega

theorem terminalAdmit_terminals (s : St) : (terminalAdmit s).terminals = s.terminals + 1 := by
  simp [terminalAdmit, processQueue_terminals]

theorem terminalAdmit_admit1Calls (s : St) :
    (terminalAdmit s).admit1Calls = s.admit1Calls + 1 := by
  simp [terminalAdmit, processQueue_admit1Calls]

theorem terminalAdmit_len (s : St) : (terminalAdmit s).len = s.len := by
  simp [terminalAdmit, processQueue_len]

theorem terminalAdmit_thumbnails (s : St) : (terminalAdmit s).thumbnails = s.thumbnails := by
  simp [terminalAdmit, processQueue_thumbnails]

theorem terminalAdmit_events (s : St) : (terminalAdmit s).events = s.events := by
  simp [terminalAdmit, processQueue_events]

theorem terminalAdmit_generateCount (s : St) :
    (terminalAdmit s).ops.countP isGenerateOp = s.ops.countP isGenerateOp := by
  simp [terminalAdmit, processQueue_generateCount]

theorem emitThumbnailingDone_ops (s : St) : (emitThumbnailingDone s).ops = s.ops := by
  unfold emitThumbnailingDone
  split <;> rfl

theorem emitThumbnailingDone_terminals (s : St) :
    (emitThumbnailingDone s).terminals = s.terminals := by
  unfold emitThumbnailingDone
  split <;> rfl

theorem emitThumbnailingDone_admit1Calls (s : St) :
    (emitThumbnailingDone s).admit1Calls = s.admit1Calls := by
  unfold emitThumbnailingDone
  split <;> rfl

theorem emitThumbnailingDone_pops (s : St) : (emitThumbnailingDone s).pops = s.pops := by
  unfold emitThumbnailingDone
  split <;> rfl

theorem emitThumbnailingDone_queue (s : St) : (emitThumbnailingDone s).queue = s.queue := by
  unfold emitThumbnailingDone
  split <;> rfl

/-! ## Slot conservation invariant -/

theorem conserved_processQueue (n : Nat) {s : St} (h : conserved s) :
    conserved (processQueue n s) := by
  obtain ⟨h1, h2⟩ := h
  constructor
  · rw [processQueue_admit1Calls, processQueue_terminals]; exact h1
  · have hb := processQueue_balance n s
    rw [processQueue_terminals]
    omega

theorem conserved_terminalAdmit {s : St}
    (h1 : s.admit1Calls = s.terminals)
    (h2 : s.terminals + 1 + inflight s = s.pops) :
    conserved (terminalAdmit s) := by
  unfold terminalAdmit
  apply conserved_processQueue
  refine ⟨?_, ?_⟩
  · show s.admit1Calls + 1 = s.terminals + 1
    omega
  · show s.terminals + 1 +
      (List.countP isPipelineOp s.ops) = s.pops
    simp only [inflight] at h2
    omega

theorem conserved_onQueryInfoReady (env : Env) {s : St} (uri : String) (tok : Option Nat)
    (h1 : s.admit1Calls = s.terminals)
    (h2 : s.terminals + 1 + inflight s = s.pops) :
    conserved (onQueryInfoReady env s uri tok) := by
  simp only [onQueryInfoReady]
  split
  · exact conserved_terminalAdmit h1 h2
  · simp only [startThumbnailingFile]
    split
    · exact conserved_terminalAdmit h1 h2
    · split
      · exact conserved_terminalAdmit h1 h2
      · split
        · exact conserved_terminalAdmit h1 h2
        · refine ⟨h1, ?_⟩
          simp only [inflight, List.countP_append, List.countP_cons, List.countP_nil] at h2 ⊢
          simp [isPipelineOp]
          omega

theorem conserved_onGenerateThumbnailReady (env : Env) {s : St} (info : FileInfoC)
    (tok : Option Nat)
    (h1 : s.admit1Calls = s.terminals)
    (h2 : s.terminals + 1 + inflight s = s.pops) :
    conserved (onGenerateThumbnailReady env s info tok) := by
  simp only [onGenerateThumbnailReady]
  split
  · refine ⟨h1, ?_⟩
    simp only [inflight, List.countP_append, List.countP_cons, List.countP_nil] at h2 ⊢
    simp [isPipelineOp]
    omega
  · refine ⟨h1, ?_⟩
    simp only [inflight, List.countP_append, List.countP_cons, List.countP_nil] at h2 ⊢
    simp [isPipelineOp]
    omega

theorem conserved_onSaveThumbnailReady (env : Env) {s : St} (info : FileInfoC)
    (tok : Option Nat)
    (h1 : s.admit1Calls = s.terminals)
    (h2 : s.terminals + 1 + inflight s = s.pops) :
    conserved (onSaveThumbnailReady env s info tok) := by
  simp only [onSaveThumbnailReady]
  split
  · exact conserved_terminalAdmit h1 h2
  · apply conserved_terminalAdmit
    · rw [emitThumbnailingDone_admit1Calls, emitThumbnailingDone_terminals]
      exact h1
    · rw [emitThumbnailingDone_terminals, emitThumbnailingDone_pops]
      have ho := emitThumbnailingDone_ops
        { s with thumbnails := dictInsert (if s.len = 0 then [] else s.thumbnails)
                   info.uri (env.savedPath info.uri info.mtime), len := s.len + 1 }
      simp only [inflight, ho] at h2 ⊢
      omega

theorem conserved_onCreateFailedThumbnailReady (env : Env) {s : St} (info : FileInfoC)
    (tok : Option Nat)
    (h1 : s.admit1Calls = s.terminals)
    (h2 : s.terminals + 1 + inflight s = s.pops) :
    conserved (onCreateFailedThumbnailReady env s info tok) := by
  simp only [onCreateFailedThumbnailReady]
  split
  · exact conserved_terminalAdmit h1 h2
  · exact conserved_terminalAdmit h1 h2

theorem conserved_onEnumerateChildrenReady (env : Env) {s : St} (d : String) (inv : Nat)
    (tok : Option Nat) (h : conserved s) :
    conserved (onEnumerateChildrenReady env s d inv tok) := by
  obtain ⟨h1, h2⟩ := h
  simp only [onEnumerateChildrenReady]
  split
  · exact ⟨h1, h2⟩
  · refine ⟨h1, ?_⟩
    simp only [inflight, List.countP_append, List.countP_cons, List.countP_nil] at h2 ⊢
    simp [isPipelineOp]
    omega

theorem conserved_onNextFilesReady (env : Env) {s : St} (d : String) (pos : Nat)
    (tok : Option Nat) (h : conserved s) :
    conserved (onNextFilesReady env s d pos tok) := by
  obtain ⟨h1, h2⟩ := h
  simp only [onNextFilesReady]
  split
  · refine ⟨h1, ?_⟩
    simp only [inflight, List.countP_append, List.countP_cons, List.countP_nil] at h2 ⊢
    simp [isPipelineOp]
    omega
  · split
    · refine ⟨h1, ?_⟩
      simp only [inflight, List.countP_append, List.countP_cons, List.countP_nil] at h2 ⊢
      simp [isPipelineOp]
      omega
    · apply conserved_processQueue
      refine ⟨h1, ?_⟩
      simp only [inflight, List.countP_append, List.countP_cons, List.countP_nil] at h2 ⊢
      simp [isPipelineOp]
      omega

theorem conserved_onEnumeratorCloseReady {s : St} (tok : Option Nat) (h : conserved s) :
    conserved (onEnumeratorCloseReady s tok) := by
  obtain ⟨h1, h2⟩ := h
  simp only [onEnumeratorCloseReady]
  split
  · exact ⟨h1, h2⟩
  · exact ⟨h1, h2⟩

/-- Every action of the service preserves slot conservation. -/
theorem conserved_stepAct (env : Env) {s : St} (a : Act) (h : conserved s) :
    conserved (stepAct env s a) := by
  obtain ⟨h1, h2⟩ := h
  cases a with
  | thumbnailDirectory d =>
    refine ⟨h1, ?_⟩
    simp only [stepAct, handleThumbnailDirectory]
    simp only [inflight, List.countP_append, List.countP_cons, List.countP_nil] at h2 ⊢
    simp [isPipelineOp]
    omega
  | thumbnailFiles us =>
    simp only [stepAct, handleThumbnailFiles]
    have hc : conserved (processQueue CONCURRENCY_LIMIT
        { s with queue := us, cancel := some s.nextTok, nextTok := s.nextTok + 1 }) := by
      apply conserved_processQueue
      exact ⟨h1, h2⟩
    exact ⟨hc.1, hc.2⟩
  | stopThumbnailing => exact ⟨h1, h2⟩
  | dispatch i =>
    cases hop : s.ops[i]? with
    | none => simp only [stepAct, hop]; exact ⟨h1, h2⟩
    | some op =>
      simp only [stepAct, hop]
      have herase := countP_eraseIdx isPipelineOp s.ops i op hop
      cases op with
      | queryInfo uri tok =>
        simp only [dispatchOp]
        apply conserved_onQueryInfoReady
        · exact h1
        · simp [isPipelineOp] at herase
          simp only [inflight] at h2 ⊢
          omega
      | generate info tok =>
        simp only [dispatchOp]
        apply conserved_onGenerateThumbnailReady
        · exact h1
        · simp [isPipelineOp] at herase
          simp only [inflight] at h2 ⊢
          omega
      | save info tok =>
        simp only [dispatchOp]
        apply conserved_onSaveThumbnailReady
        · exact h1
        · simp [isPipelineOp] at herase
          simp only [inflight] at h2 ⊢
          omega
      | createFailed info tok =>
        simp only [dispatchOp]
        apply conserved_onCreateFailedThumbnailReady
        · exact h1
        · simp [isPipelineOp] at herase
          simp only [inflight] at h2 ⊢
          omega
      | enumChildren d inv tok =>
        simp only [dispatchOp]
        apply conserved_onEnumerateChildrenReady
        refine ⟨h1, ?_⟩
        simp [isPipelineOp] at herase
        simp only [inflight] at h2 ⊢
        omega
      | nextFiles d pos tok =>
        simp only [dispatchOp]
        apply conserved_onNextFilesReady
        refine ⟨h1, ?_⟩
        simp [isPipelineOp] at herase
        simp only [inflight] at h2 ⊢
        omega
      | closeEnum d tok =>
        simp only [dispatchOp]
        apply conserved_onEnumeratorCloseReady
        refine ⟨h1, ?_⟩
        simp [isPipelineOp] at herase
        simp only [inflight] at h2 ⊢
        omega

theorem conserved_run (env : Env) (acts : List Act) {s : St} (h : conserved s) :
    conserved (run env acts s) := by
  induction acts generalizing s with
  | nil => exact h
  | cons a as ih => exact ih (conserved_stepAct env a h)

/-! ## Concurrency cap within a single request -/

theorem inflight_terminalAdmit_le (s : St) :
    inflight (terminalAdmit s) ≤ inflight s + 1 := by
  unfold terminalAdmit
  exact inflight_processQueue_le 1
    { s with terminals := s.terminals + 1, admit1Calls := s.admit1Calls + 1 }

theorem pipelineOnly_terminalAdmit {s : St} (hp : pipelineOnly s) :
    pipelineOnly (terminalAdmit s) := by
  unfold terminalAdmit
  exact processQueue_pipelineOnly 1 _ hp

theorem pipelineOnly_append {l : List AsyncOp} {op : AsyncOp}
    (hp : ∀ o ∈ l, isPipelineOp o = true) (hop : isPipelineOp op = true) :
    ∀ o ∈ l ++ [op], isPipelineOp o = true := by
  intro o ho
  rcases List.mem_append.mp ho with h | h
  · exact hp o h
  · simp only [List.mem_singleton] at h
    subst h
    exact hop

theorem inflight_onQueryInfoReady_le (env : Env) (s : St) (uri : String)
    (tok : Option Nat) :
    inflight (onQueryInfoReady env s uri tok) ≤ inflight s + 1 := by
  simp only [onQueryInfoReady]
  split
  · exact inflight_terminalAdmit_le _
  · simp only [startThumbnailingFile]
    split
    · exact inflight_terminalAdmit_le _
    · split
      · exact inflight_terminalAdmit_le _
      · split
        · exact inflight_terminalAdmit_le _
        · simp [inflight, List.countP_append, List.countP_cons, isPipelineOp]

theorem pipelineOnly_onQueryInfoReady (env : Env) {s : St} (uri : String)
    (tok : Option Nat) (hp : pipelineOnly s) :
    pipelineOnly (onQueryInfoReady env s uri tok) := by
  simp only [onQueryInfoReady]
  split
  · exact pipelineOnly_terminalAdmit hp
  · simp only [startThumbnailingFile]
    split
    · exact pipelineOnly_terminalAdmit hp
    · split
      · exact pipelineOnly_terminalAdmit hp
      · split
        · exact pipelineOnly_terminalAdmit hp
        · exact pipelineOnly_append hp rfl

theorem inflight_onGenerateThumbnailReady_le (env : Env) (s : St) (info : FileInfoC)
    (tok : Option Nat) :
    inflight (onGenerateThumbnailReady env s info tok) ≤ inflight s + 1 := by
  simp only [onGenerateThumbnailReady]
  split
  · simp [inflight, List.countP_append, List.countP_cons, isPipelineOp]
  · simp [inflight, List.countP_append, List.countP_cons, isPipelineOp]

theorem pipelineOnly_onGenerateThumbnailReady (env : Env) {s : St} (info : FileInfoC)
    (tok : Option Nat) (hp : pipelineOnly s) :
    pipelineOnly (onGenerateThumbnailReady env s info tok) := by
  simp only [onGenerateThumbnailReady]
  split
  · exact pipelineOnly_append hp rfl
  · exact pipelineOnly_append hp rfl

theorem inflight_onSaveThumbnailReady_le (env : Env) (s : St) (info : FileInfoC)
    (tok : Option Nat) :
    inflight (onSaveThumbnailReady env s info tok) ≤ inflight s + 1 := by
  simp only [onSaveThumbnailReady]
  split
  · exact inflight_terminalAdmit_le _
  · have h := inflight_terminalAdmit_le (emitThumbnailingDone
      { s with thumbnails := dictInsert (if s.len = 0 then [] else s.thumbnails)
                 info.uri (env.savedPath info.uri info.mtime), len := s.len + 1 })
    have ho := emitThumbnailingDone_ops
      { s with thumbnails := dictInsert (if s.len = 0 then [] else s.thumbnails)
                 info.uri (env.savedPath info.uri info.mtime), len := s.len + 1 }
    simp only [inflight, ho] at h ⊢
    exact h

theorem pipelineOnly_onSaveThumbnailReady (env : Env) {s : St} (info : FileInfoC)
    (tok : Option Nat) (hp : pipelineOnly s) :
    pipelineOnly (onSaveThumbnailReady env s info tok) := by
  simp only [onSaveThumbnailReady]
  split
  · exact pipelineOnly_terminalAdmit hp
  · apply pipelineOnly_terminalAdmit
    intro o ho
    have hops := emitThumbnailingDone_ops
      { s with thumbnails := dictInsert (if s.len = 0 then [] else s.thumbnails)
                 info.uri (env.savedPath info.uri info.mtime), len := s.len + 1 }
    rw [pipelineOnly] at hp
    rw [hops] at ho
    exact hp o ho

theorem inflight_onCreateFailedThumbnailReady_le (env : Env) (s : St) (info : FileInfoC)
    (tok : Option Nat) :
    inflight (onCreateFailedThumbnailReady env s info tok) ≤ inflight s + 1 := by
  simp only [onCreateFailedThumbnailReady]
  split
  · exact inflight_terminalAdmit_le _
  · exact inflight_terminalAdmit_le _

theorem pipelineOnly_onCreateFailedThumbnailReady (env : Env) {s : St} (info : FileInfoC)
    (tok : Option Nat) (hp : pipelineOnly s) :
    pipelineOnly (onCreateFailedThumbnailReady env s info tok) := by
  simp only [onCreateFailedThumbnailReady]
  split
  · exact pipelineOnly_terminalAdmit hp
  · exact pipelineOnly_terminalAdmit hp

/-- Dispatching any completion preserves the concurrency-cap invariant: each
completion callback replaces the finished pipeline by at most one new one. -/
theorem capInv_dispatch (env : Env) {s : St} (i : Nat) (h : capInv s) :
    capInv (stepAct env s (Act.dispatch i)) := by
  obtain ⟨hb, hp⟩ := h
  cases hop : s.ops[i]? with
  | none => simp only [stepAct, hop]; exact ⟨hb, hp⟩
  | some op =>
    simp only [stepAct, hop]
    have hmem : op ∈ s.ops := List.getElem?_mem hop
    have hpo : isPipelineOp op = true := hp op hmem
    have herase := countP_eraseIdx isPipelineOp s.ops i op hop
    rw [hpo, if_pos rfl] at herase
    have hp1 : pipelineOnly { s with ops := s.ops.eraseIdx i } := by
      intro o ho
      exact hp o (List.Sublist.mem ho (List.eraseIdx_sublist s.ops i))
    have hb1 : inflight { s with ops := s.ops.eraseIdx i } + 1 ≤ CONCURRENCY_LIMIT := by
      simp only [inflight] at hb ⊢
      omega
    cases op with
    | queryInfo uri tok =>
      simp only [dispatchOp]
      exact ⟨le_trans (inflight_onQueryInfoReady_le env _ uri tok) hb1,
             pipelineOnly_onQueryInfoReady env uri tok hp1⟩
    | generate info tok =>
      simp only [dispatchOp]
      exact ⟨le_trans (inflight_onGenerateThumbnailReady_le env _ info tok) hb1,
             pipelineOnly_onGenerateThumbnailReady env info tok hp1⟩
    | save info tok =>
      simp only [dispatchOp]
      exact ⟨le_trans (inflight_onSaveThumbnailReady_le env _ info tok) hb1,
             pipelineOnly_onSaveThumbnailReady env info tok hp1⟩
    | createFailed info tok =>
      simp only [dispatchOp]
      exact ⟨le_trans (inflight_onCreateFailedThumbnailReady_le env _ info tok) hb1,
             pipelineOnly_onCreateFailedThumbnailReady env info tok hp1⟩
    | enumChildren d inv tok => simp [isPipelineOp] at hpo
    | nextFiles d pos tok => simp [isPipelineOp] at hpo
    | closeEnum d tok => simp [isPipelineOp] at hpo

theorem capInv_run_dispatches (env : Env) (ds : List Act) {s : St}
    (hd : ∀ a ∈ ds, ∃ i, a = Act.dispatch i) (h : capInv s) :
    capInv (run env ds s) := by
  induction ds generalizing s with
  | nil => exact h
  | cons a as ih =>
    obtain ⟨i, rfl⟩ := hd a (List.mem_cons_self a as)
    exact ih (fun b hb => hd b (List.mem_cons_of_mem _ hb)) (capInv_dispatch env i h)

/-- After `handle_thumbnail_files` on the fresh service, at most
`CONCURRENCY_LIMIT` pipelines are in flight and nothing else is outstanding. -/
theorem capInv_thumbnailFiles_init (env : Env) (uris : List String) :
    capInv (stepAct env init (Act.thumbnailFiles uris)) := by
  simp only [stepAct, handleThumbnailFiles]
  have hstart : ∀ o ∈ (init : St).ops, isPipelineOp o = true := by
    intro o ho
    simp [init] at ho
  constructor
  · have h := inflight_processQueue_le CONCURRENCY_LIMIT
      { init with queue := uris, cancel := some (init : St).nextTok,
                  nextTok := (init : St).nextTok + 1 }
    simp only [inflight] at h ⊢
    simp [init] at h ⊢
    omega
  · intro o ho
    exact processQueue_pipelineOnly CONCURRENCY_LIMIT
      { init with queue := uris, cancel := some (init : St).nextTok,
                  nextTok := (init : St).nextTok + 1 } hstart o ho

/-! ## Stale completions never touch the batch -/

theorem opCancelled_ops_update (s : St) (l : List AsyncOp) (t : Option Nat) :
    opCancelled { s with ops := l } t = opCancelled s t := by
  cases t <;> rfl

/-- Dispatching a completion whose cancellable token is no longer the active
one leaves `self->len`, the accumulated dict and the emitted events
untouched (the failure branch of every callback runs). -/
theorem stale_dispatch_batch_frame (env : Env) (s : St) (i : Nat) (op : AsyncOp)
    (hop : s.ops[i]? = some op) (hstale : opCancelled s (opTok op) = true) :
    (stepAct env s (Act.dispatch i)).len = s.len ∧
    (stepAct env s (Act.dispatch i)).thumbnails = s.thumbnails ∧
    (stepAct env s (Act.dispatch i)).events = s.events := by
  simp only [stepAct, hop]
  cases op with
  | queryInfo uri tok =>
    have hst : opCancelled { s with ops := s.ops.eraseIdx i } tok = true := by
      rw [opCancelled_ops_update]; exact hstale
    simp only [dispatchOp, onQueryInfoReady, hst, Bool.true_or, if_true]
    exact ⟨by rw [terminalAdmit_len], by rw [terminalAdmit_thumbnails],
           by rw [terminalAdmit_events]⟩
  | generate info tok =>
    have hst : opCancelled { s with ops := s.ops.eraseIdx i } tok = true := by
      rw [opCancelled_ops_update]; exact hstale
    simp only [dispatchOp, onGenerateThumbnailReady, hst, Bool.true_or, if_true]
    exact ⟨by trivial, by trivial, by trivial⟩
  | save info tok =>
    have hst : opCancelled { s with ops := s.ops.eraseIdx i } tok = true := by
      rw [opCancelled_ops_update]; exact hstale
    simp only [dispatchOp, onSaveThumbnailReady, hst, Bool.true_or, if_true]
    exact ⟨by rw [terminalAdmit_len], by rw [terminalAdmit_thumbnails],
           by rw [terminalAdmit_events]⟩
  | createFailed info tok =>
    have hst : opCancelled { s with ops := s.ops.eraseIdx i } tok = true := by
      rw [opCancelled_ops_update]; exact hstale
    simp only [dispatchOp, onCreateFailedThumbnailReady, hst, Bool.true_or, if_true]
    exact ⟨by rw [terminalAdmit_len], by rw [terminalAdmit_thumbnails],
           by rw [terminalAdmit_events]⟩
  | enumChildren d inv tok =>
    have hst : opCancelled { s with ops := s.ops.eraseIdx i } tok = true := by
      rw [opCancelled_ops_update]; exact hstale
    simp only [dispatchOp, onEnumerateChildrenReady, hst, Bool.true_or, if_true]
    exact ⟨by trivial, by trivial, by trivial⟩
  | nextFiles d pos tok =>
    have hst : opCancelled { s with ops := s.ops.eraseIdx i } tok = true := by
      rw [opCancelled_ops_update]; exact hstale
    simp only [dispatchOp, onNextFilesReady, hst, Bool.true_or, if_true]
    exact ⟨by trivial, by trivial, by trivial⟩
  | closeEnum d tok =>
    have hst : opCancelled { s with ops := s.ops.eraseIdx i } tok = true := by
      rw [opCancelled_ops_update]; exact hstale
    simp only [dispatchOp, onEnumeratorCloseReady, hst, if_true]
    exact ⟨by trivial, by trivial, by trivial⟩

/-! ## The claims -/

set_option maxHeartbeats 2000000 in
set_option maxRecDepth 20000 in
/-- **C1** (counterexample).  `ThumbnailDirectory` issued twice in
succession: just before the first request's stale metadata completion fires,
the second request's queue still holds `dirB/b4`; firing the stale
completion (token 0, no longer the active token 1) pops `dirB/b4` and starts
a pipeline for it — a stale completion admits a new candidate and so is not
discarded without side effects, contrary to the claim. -/
theorem epoch_isolation_counterexample :
    sC1.ops[1]? = some (AsyncOp.queryInfo "dirA/a1" (some 0)) ∧
    opCancelled sC1 (some 0) = true ∧
    sC1.queue = ["dirB/b4"] ∧
    sC1after.pops = sC1.pops + 1 ∧
    sC1after.admit1Calls = sC1.admit1Calls + 1 ∧
    sC1after.queue = [] ∧
    AsyncOp.queryInfo "dirB/b4" (some 1) ∈ sC1after.ops := by
  decide

/-- **C1** (amended).  After a second request starts a new Epoch, a
completion originating from the first request (its cancellable token is no
longer the active one) never mutates the ResultBatch (`self->len` and the
accumulated dict) and never contributes an entry to any emitted
`ThumbnailingDone` event; it is however not free of side effects: it still
runs `process_queue (1)` against the current queue (see the
counterexample). -/
theorem epoch_isolation_stale_completions (env : Env) (s : St) (i : Nat) (op : AsyncOp)
    (hop : s.ops[i]? = some op) (hstale : opCancelled s (opTok op) = true) :
    (stepAct env s (Act.dispatch i)).len = s.len ∧
    (stepAct env s (Act.dispatch i)).thumbnails = s.thumbnails ∧
    (stepAct env s (Act.dispatch i)).events = s.events :=
  stale_dispatch_batch_frame env s i op hop hstale

/-- Witness for `epoch_isolation_stale_completions` at a concrete stale
completion. -/
theorem epoch_isolation_stale_completions_witness :
    (sC1w.ops[0]? = some (AsyncOp.queryInfo "a" (some 0)) ∧
      opCancelled sC1w (opTok (AsyncOp.queryInfo "a" (some 0))) = true) ∧
    ((stepAct envA sC1w (Act.dispatch 0)).len = sC1w.len ∧
     (stepAct envA sC1w (Act.dispatch 0)).thumbnails = sC1w.thumbnails ∧
     (stepAct envA sC1w (Act.dispatch 0)).events = sC1w.events) :=
  ⟨⟨rfl, rfl⟩,
   epoch_isolation_stale_completions envA sC1w 0 (AsyncOp.queryInfo "a" (some 0)) rfl rfl⟩

/-- **C2** (counterexample).  Two `ThumbnailFiles` requests back to back:
after the three stale completions of the first request fire, six pipelines
are in flight simultaneously — all six tagged with the *active* token — so
the cap `ActiveSlotSet.size ≤ CONCURRENCY_LIMIT` does not hold across epoch
changes. -/
theorem concurrency_cap_counterexample :
    inflight (run envA trC2 init) = 6 ∧
    CONCURRENCY_LIMIT < inflight (run envA trC2 init) ∧
    (∀ op ∈ (run envA trC2 init).ops,
      opCancelled (run envA trC2 init) (opTok op) = false) := by
  refine ⟨rfl, by decide, by decide⟩

/-- **C2** (amended).  Within a single request — a `ThumbnailFiles` call on
the fresh service followed by any interleaving of completion dispatches,
with no second request superseding it — at most `CONCURRENCY_LIMIT` (3)
per-candidate pipelines are ever in flight. -/
theorem concurrency_cap_single_request (env : Env) (uris : List String) (ds : List Act)
    (hd : ∀ a ∈ ds, ∃ i, a = Act.dispatch i) :
    inflight (run env (Act.thumbnailFiles uris :: ds) init) ≤ CONCURRENCY_LIMIT := by
  have h0 := capInv_thumbnailFiles_init env uris
  have h := capInv_run_dispatches env ds hd h0
  exact h.1

/-- Witness for `concurrency_cap_single_request` at a concrete trace. -/
theorem concurrency_cap_single_request_witness :
    (∀ a ∈ [Act.dispatch 0, Act.dispatch 0], ∃ i, a = Act.dispatch i) ∧
    inflight (run envA (Act.thumbnailFiles ["a", "b", "c", "d"] ::
      [Act.dispatch 0, Act.dispatch 0]) init) ≤ CONCURRENCY_LIMIT := by
  have hd : ∀ a ∈ [Act.dispatch 0, Act.dispatch 0], ∃ i, a = Act.dispatch i := by
    intro a ha
    simp only [List.mem_cons, List.mem_singleton, List.not_mem_nil, or_false] at ha
    rcases ha with h | h
    · exact ⟨0, h⟩
    · exact ⟨0, h⟩
  exact ⟨hd, concurrency_cap_single_request envA ["a", "b", "c", "d"]
    [Act.dispatch 0, Act.dispatch 0] hd⟩

set_option maxRecDepth 20000 in
/-- **C3** (counterexample).  25 candidates that all succeed, completions
dispatched in FIFO order until the run drains (queue empty, nothing in
flight, 25 terminal outcomes): `emit_thumbnailing_done` fires **5** times,
with batch sizes 10, 10, 3, 1, 1 — not 3 times — because the code emits
whenever the queue is empty at a successful save, without waiting for the
in-flight pipelines to drain. -/
theorem batching_law_counterexample :
    (run envA trC3 init).events.map Prod.snd = [10, 10, 3, 1, 1] ∧
    ((run envA trC3 init).events.map Prod.snd).sum = 25 ∧
    (run envA trC3 init).events.length ≠ 3 ∧
    (run envA trC3 init).queue = [] ∧
    inflight (run envA trC3 init) = 0 ∧
    (run envA trC3 init).pops = 25 ∧
    (run envA trC3 init).terminals = 25 := by
  refine ⟨?_, ?_, ?_, ?_, ?_, ?_, ?_⟩
  · rfl
  · rfl
  · decide
  · rfl
  · rfl
  · rfl
  · rfl

set_option maxRecDepth 20000 in
/-- **C3** (amended).  After each successful save the code emits a
`ThumbnailingDone` event carrying the full accumulated mapping and resets
the batch exactly when the batch size is at least `THUMBNAILING_DONE_BATCH`
(10) **or** the PendingQueue is empty — the in-flight pipelines are not
consulted.  Consequently a run of 25 all-succeeding candidates (FIFO
completion order) produces exactly 5 events with batch sizes 10, 10, 3, 1, 1
summing to 25. -/
theorem batching_law_amended :
    (∀ s : St, s.len < THUMBNAILING_DONE_BATCH → s.queue ≠ [] →
      emitThumbnailingDone s = s) ∧
    (∀ s : St, THUMBNAILING_DONE_BATCH ≤ s.len ∨ s.queue = [] →
      emitThumbnailingDone s =
        { s with events := s.events ++ [(s.thumbnails, s.len)],
                 len := 0, thumbnails := [] }) ∧
    (run envA trC3 init).events.map Prod.snd = [10, 10, 3, 1, 1] ∧
    ((run envA trC3 init).events.map Prod.snd).sum = 25 := by
  refine ⟨?_, ?_, rfl, rfl⟩
  · intro s h1 h2
    rw [emitThumbnailingDone, if_pos]
    refine ⟨h1, ?_⟩
    simpa [List.length_eq_zero] using h2
  · intro s h
    rw [emitThumbnailingDone, if_neg]
    rintro ⟨hlen, hne⟩
    rcases h with h | h
    · omega
    · exact hne (by simp [h])

/-- Witness for `batching_law_amended`: a below-threshold batch with a
non-empty queue is kept, an empty-queue batch is flushed. -/
theorem batching_law_amended_witness :
    ((1 : Nat) < THUMBNAILING_DONE_BATCH ∧ (["q"] : List String) ≠ []) ∧
    emitThumbnailingDone { init with len := 1, queue := ["q"] } =
      { init with len := 1, queue := ["q"] } ∧
    emitThumbnailingDone { init with len := 1 } =
      { init with events := [([], 1)], len := 0 } := by
  refine ⟨⟨by decide, by decide⟩, ?_, ?_⟩
  · exact batching_law_amended.1 { init with len := 1, queue := ["q"] } (by decide) (by decide)
  · exact batching_law_amended.2.1 { init with len := 1 } (Or.inr rfl)

/-- **C4** (confirmed).  Conservation of admission slots, as a run
invariant: along any action sequence (any requests, any interleaving of
completions, epoch changes allowed), the number of `process_queue (1)` calls
made by completion callbacks equals the number of terminal pipeline
outcomes, and every candidate ever popped from the queue is either still in
flight or has reached exactly one terminal outcome — no leaked slots, no
double admission.  In a drained state (`inflight = 0`) the terminal outcomes
are exactly the popped candidates. -/
theorem conservation_of_admissions (env : Env) (acts : List Act) :
    (run env acts init).admit1Calls = (run env acts init).terminals ∧
    (run env acts init).terminals + inflight (run env acts init) =
      (run env acts init).pops :=
  conserved_run env acts ⟨rfl, rfl⟩

/-- **C5** (confirmed).  The decision gate evaluates its checks in the fixed
order cached-thumbnail lookup, valid-failure-marker, `can_thumbnail`, first
match winning; every skip outcome never starts a `generate` operation, adds
no ResultBatch entry, contributes to no event, and consumes exactly one
admission slot cycle (one terminal outcome, one `process_queue (1)` call);
only `proceed` starts `generate`. -/
theorem decision_gate_and_skip_law :
    (∀ (env : Env) (info : FileInfoC), (env.lookup info.uri info.mtime).isSome = true →
      decisionGate env info = GateOutcome.skipCached) ∧
    (∀ (env : Env) (info : FileInfoC), env.lookup info.uri info.mtime = none →
      env.hasValidFailed info.uri info.mtime = true →
      decisionGate env info = GateOutcome.skipFailed) ∧
    (∀ (env : Env) (info : FileInfoC), env.lookup info.uri info.mtime = none →
      env.hasValidFailed info.uri info.mtime = false →
      env.canThumbnail info.uri info.mimeType info.mtime = false →
      decisionGate env info = GateOutcome.skipUnsupported) ∧
    (∀ (env : Env) (info : FileInfoC), env.lookup info.uri info.mtime = none →
      env.hasValidFailed info.uri info.mtime = false →
      env.canThumbnail info.uri info.mimeType info.mtime = true →
      decisionGate env info = GateOutcome.proceed) ∧
    (∀ (env : Env) (s : St) (info : FileInfoC),
      decisionGate env info ≠ GateOutcome.proceed →
      (startThumbnailingFile env s info).ops.countP isGenerateOp =
        s.ops.countP isGenerateOp ∧
      (startThumbnailingFile env s info).len = s.len ∧
      (startThumbnailingFile env s info).thumbnails = s.thumbnails ∧
      (startThumbnailingFile env s info).events = s.events ∧
      (startThumbnailingFile env s info).terminals = s.terminals + 1 ∧
      (startThumbnailingFile env s info).admit1Calls = s.admit1Calls + 1) ∧
    (∀ (env : Env) (s : St) (info : FileInfoC),
      decisionGate env info = GateOutcome.proceed →
      (startThumbnailingFile env s info).ops =
        s.ops ++ [AsyncOp.generate info s.cancel]) := by
  refine ⟨?_, ?_, ?_, ?_, ?_, ?_⟩
  · intro env info h
    cases hl : env.lookup info.uri info.mtime with
    | none => rw [hl] at h; simp at h
    | some p => simp [decisionGate, hl]
  · intro env info h1 h2
    simp [decisionGate, h1, h2]
  · intro env info h1 h2 h3
    simp [decisionGate, h1, h2, h3]
  · intro env info h1 h2 h3
    simp [decisionGate, h1, h2, h3]
  · intro env s info hne
    cases hl : env.lookup info.uri info.mtime with
    | some p =>
      simp only [startThumbnailingFile, hl]
      exact ⟨terminalAdmit_generateCount s, terminalAdmit_len s, terminalAdmit_thumbnails s,
             terminalAdmit_events s, terminalAdmit_terminals s, terminalAdmit_admit1Calls s⟩
    | none =>
      by_cases hf : env.hasValidFailed info.uri info.mtime = true
      · simp only [startThumbnailingFile, hl, hf, if_true]
        exact ⟨terminalAdmit_generateCount s, terminalAdmit_len s, terminalAdmit_thumbnails s,
               terminalAdmit_events s, terminalAdmit_terminals s, terminalAdmit_admit1Calls s⟩
      · rw [Bool.not_eq_true] at hf
        by_cases hc : env.canThumbnail info.uri info.mimeType info.mtime = true
        · exact absurd (by simp [decisionGate, hl, hf, hc]) hne
        · rw [Bool.not_eq_true] at hc
          simp only [startThumbnailingFile, hl, hf, hc, Bool.not_false, if_true, if_false]
          exact ⟨terminalAdmit_generateCount s, terminalAdmit_len s, terminalAdmit_thumbnails s,
                 terminalAdmit_events s, terminalAdmit_terminals s, terminalAdmit_admit1Calls s⟩
  · intro env s info hp
    cases hl : env.lookup info.uri info.mtime with
    | some p => simp [decisionGate, hl] at hp
    | none =>
      by_cases hf : env.hasValidFailed info.uri info.mtime = true
      · simp [decisionGate, hl, hf] at hp
      · rw [Bool.not_eq_true] at hf
        by_cases hc : env.canThumbnail info.uri info.mimeType info.mtime = true
        · simp [startThumbnailingFile, hl, hf, hc]
        · rw [Bool.not_eq_true] at hc
          simp [decisionGate, hl, hf, hc] at hp

/-- Witness for `decision_gate_and_skip_law`: each gate branch at a concrete
candidate, plus the skip and proceed behaviours. -/
theorem decision_gate_and_skip_law_witness :
    decisionGate envW ⟨"cached", "m", 1⟩ = GateOutcome.skipCached ∧
    decisionGate envW ⟨"marked", "m", 1⟩ = GateOutcome.skipFailed ∧
    decisionGate envW ⟨"nothumb", "m", 1⟩ = GateOutcome.skipUnsupported ∧
    decisionGate envW ⟨"other", "m", 1⟩ = GateOutcome.proceed ∧
    (startThumbnailingFile envW init ⟨"cached", "m", 1⟩).ops.countP isGenerateOp =
      (init : St).ops.countP isGenerateOp ∧
    (startThumbnailingFile envW init ⟨"cached", "m", 1⟩).terminals =
      (init : St).terminals + 1 ∧
    (startThumbnailingFile envW init ⟨"other", "m", 1⟩).ops =
      (init : St).ops ++ [AsyncOp.generate ⟨"other", "m", 1⟩ (init : St).cancel] := by
  have h := decision_gate_and_skip_law
  have hskip := h.2.2.2.2.1 envW init ⟨"cached", "m", 1⟩ (by decide)
  exact ⟨h.1 envW ⟨"cached", "m", 1⟩ (by decide),
         h.2.1 envW ⟨"marked", "m", 1⟩ (by decide) (by decide),
         h.2.2.1 envW ⟨"nothumb", "m", 1⟩ (by decide) (by decide) (by decide),
         h.2.2.2.1 envW ⟨"other", "m", 1⟩ (by decide) (by decide) (by decide),
         hskip.1, hskip.2.2.2.2.1,
         h.2.2.2.2.2 envW init ⟨"other", "m", 1⟩ (by decide)⟩

/-- **C6** (counterexample).  `ThumbnailDirectory` on a directory that opens
fine but whose enumeration fails at the second `next_files` call: the call
was already completed with `accepted` when the enumerator was obtained, so
the enumeration error is only logged, the queue (already holding `D/c1`) is
cleared and the enumerator closed — **no** error is surfaced to the
caller, contrary to the claim. -/
theorem enumeration_error_not_surfaced :
    (run envE trC6 init).replies = [(0, Reply.accepted)] ∧
    (run envE trC6 init).logs = [(LogSite.nextFilesSite, LogLevel.warning)] ∧
    (run envE trC6 init).queue = [] ∧
    (run envE (List.take 3 trC6) init).queue = ["D/c1"] ∧
    Reply.errorReply ∉ (run envE trC6 init).replies.map Prod.snd := by
  refine ⟨rfl, rfl, rfl, rfl, ?_⟩
  decide

/-- **C6** (amended).  The method call returns an error to the caller
exactly when obtaining the directory enumerator fails (the completion of the
open is delivered failed); on an enumeration error after a successful open,
the request is aborted — the error is logged, the enumerator closed and the
PendingQueue cleared — but no error is surfaced to the caller: the
invocation was already completed with `accepted` (the replies are
unchanged by the enumeration-error handler). -/
theorem thumbnail_directory_error_surfacing :
    (∀ (env : Env) (s : St) (d : String) (inv : Nat) (tok : Option Nat),
      opCancelled s tok = false → env.openOk d = true →
      onEnumerateChildrenReady env s d inv tok =
        { s with ops := s.ops ++ [AsyncOp.nextFiles d 0 s.cancel],
                 replies := s.replies ++ [(inv, Reply.accepted)] }) ∧
    (∀ (env : Env) (s : St) (d : String) (inv : Nat) (tok : Option Nat),
      opCancelled s tok = false → env.openOk d = false →
      onEnumerateChildrenReady env s d inv tok =
        { s with logs := s.logs ++ [(LogSite.enumerateSite, LogLevel.warning)],
                 replies := s.replies ++ [(inv, Reply.errorReply)] }) ∧
    (∀ (env : Env) (s : St) (d : String) (pos : Nat) (tok : Option Nat),
      opCancelled s tok = false → env.nextErr d pos = true →
      onNextFilesReady env s d pos tok =
        { s with logs := s.logs ++ [(LogSite.nextFilesSite, LogLevel.warning)],
                 ops := s.ops ++ [AsyncOp.closeEnum d s.cancel],
                 queue := [] }) := by
  refine ⟨?_, ?_, ?_⟩
  · intro env s d inv tok h1 h2
    simp [onEnumerateChildrenReady, h1, h2]
  · intro env s d inv tok h1 h2
    simp [onEnumerateChildrenReady, h1, h2]
  · intro env s d pos tok h1 h2
    simp [onNextFilesReady, h1, h2]

/-- Witness for `thumbnail_directory_error_surfacing` at concrete states. -/
theorem thumbnail_directory_error_surfacing_witness :
    (opCancelled init none = false ∧ envA.openOk "D" = true) ∧
    onEnumerateChildrenReady envA init "D" 7 none =
      { init with ops := [AsyncOp.nextFiles "D" 0 none],
                  replies := [(7, Reply.accepted)] } ∧
    onEnumerateChildrenReady envBad init "D" 8 none =
      { init with logs := [(LogSite.enumerateSite, LogLevel.warning)],
                  replies := [(8, Reply.errorReply)] } ∧
    onNextFilesReady envE init "D" 1 none =
      { init with logs := [(LogSite.nextFilesSite, LogLevel.warning)],
                  ops := [AsyncOp.closeEnum "D" none] } := by
  have h := thumbnail_directory_error_surfacing
  exact ⟨⟨rfl, rfl⟩,
         h.1 envA init "D" 7 none rfl rfl,
         h.2.1 envBad init "D" 8 none rfl rfl,
         h.2.2 envE init "D" 1 none rfl rfl⟩

/-- **C7** (confirmed).  `StopThumbnailing` always completes with
`accepted`; it clears the queue, cancels and drops the active cancellable
(after which every outstanding real-cancellable completion is delivered
cancelled); it leaves the batch (`len`, dict), the outstanding operation
list, the emitted events and the logs untouched; a second invocation right
after changes nothing further in the service state; and with an empty queue
the only state change is dropping the cancellable (plus the reply
bookkeeping). -/
theorem stop_thumbnailing_idempotent (s : St) :
    (handleStopThumbnailing s).replies = s.replies ++ [(s.nextInv, Reply.accepted)] ∧
    (handleStopThumbnailing s).queue = [] ∧
    (handleStopThumbnailing s).cancel = none ∧
    (∀ t : Nat, opCancelled (handleStopThumbnailing s) (some t) = true) ∧
    (handleStopThumbnailing s).len = s.len ∧
    (handleStopThumbnailing s).thumbnails = s.thumbnails ∧
    (handleStopThumbnailing s).ops = s.ops ∧
    (handleStopThumbnailing s).events = s.events ∧
    (handleStopThumbnailing s).logs = s.logs ∧
    (handleStopThumbnailing (handleStopThumbnailing s)).queue =
      (handleStopThumbnailing s).queue ∧
    (handleStopThumbnailing (handleStopThumbnailing s)).cancel =
      (handleStopThumbnailing s).cancel ∧
    (handleStopThumbnailing (handleStopThumbnailing s)).ops =
      (handleStopThumbnailing s).ops ∧
    (handleStopThumbnailing (handleStopThumbnailing s)).len =
      (handleStopThumbnailing s).len ∧
    (handleStopThumbnailing (handleStopThumbnailing s)).thumbnails =
      (handleStopThumbnailing s).thumbnails ∧
    (handleStopThumbnailing (handleStopThumbnailing s)).events =
      (handleStopThumbnailing s).events ∧
    (s.queue = [] → handleStopThumbnailing s =
      { s with cancel := none, replies := s.replies ++ [(s.nextInv, Reply.accepted)],
               nextInv := s.nextInv + 1 }) := by
  refine ⟨rfl, rfl, rfl, fun t => rfl, rfl, rfl, rfl, rfl, rfl,
          rfl, rfl, rfl, rfl, rfl, rfl, ?_⟩
  intro h
  simp [handleStopThumbnailing, h]

/-- Witness for `stop_thumbnailing_idempotent` at the fresh service (empty
queue, no in-flight work). -/
theorem stop_thumbnailing_idempotent_witness :
    (init : St).queue = [] ∧
    handleStopThumbnailing init =
      { init with cancel := none, replies := [(0, Reply.accepted)], nextInv := 1 } :=
  ⟨rfl, (stop_thumbnailing_idempotent init).2.2.2.2.2.2.2.2.2.2.2.2.2.2.2 rfl⟩

/-- **C8** (confirmed).  When a candidate's generate step fails, the code
starts `create_failed_thumbnail_async` for the candidate's (uri, mtime)
(tagged with the current cancellable), logs the failure at debug severity
when the failure is `G_IO_ERROR_CANCELLED` (the owning cancellable was
superseded) and at warning severity otherwise, adds no ResultBatch entry and
emits no event (the full state equality shows `len`, the dict and the events
unchanged); processing then continues: the `create_failed` completion is a
terminal outcome with exactly one `process_queue (1)` call. -/
theorem generate_failure_handling :
    (∀ (env : Env) (s : St) (info : FileInfoC) (tok : Option Nat),
      opCancelled s tok = true →
      onGenerateThumbnailReady env s info tok =
        { s with logs := s.logs ++ [(LogSite.generateSite, LogLevel.debug)],
                 ops := s.ops ++ [AsyncOp.createFailed info s.cancel] }) ∧
    (∀ (env : Env) (s : St) (info : FileInfoC) (tok : Option Nat),
      opCancelled s tok = false → env.generateOk info.uri info.mimeType = false →
      onGenerateThumbnailReady env s info tok =
        { s with logs := s.logs ++ [(LogSite.generateSite, LogLevel.warning)],
                 ops := s.ops ++ [AsyncOp.createFailed info s.cancel] }) ∧
    (∀ (env : Env) (s : St) (info : FileInfoC) (tok : Option Nat),
      (onCreateFailedThumbnailReady env s info tok).terminals = s.terminals + 1 ∧
      (onCreateFailedThumbnailReady env s info tok).admit1Calls = s.admit1Calls + 1) := by
  refine ⟨?_, ?_, ?_⟩
  · intro env s info tok h
    simp [onGenerateThumbnailReady, h]
  · intro env s info tok h1 h2
    simp [onGenerateThumbnailReady, h1, h2]
  · intro env s info tok
    simp only [onCreateFailedThumbnailReady]
    split
    · exact ⟨terminalAdmit_terminals _, terminalAdmit_admit1Calls _⟩
    · exact ⟨terminalAdmit_terminals _, terminalAdmit_admit1Calls _⟩

/-- Witness for `generate_failure_handling`: a cancelled generate completion
(debug log) and a genuinely failed one (warning log). -/
theorem generate_failure_handling_witness :
    (opCancelled { init with cancel := some 1 } (some 0) = true) ∧
    onGenerateThumbnailReady envA { init with cancel := some 1 } ⟨"g", "m", 1⟩ (some 0) =
      { init with cancel := some 1,
                  logs := [(LogSite.generateSite, LogLevel.debug)],
                  ops := [AsyncOp.createFailed ⟨"g", "m", 1⟩ (some 1)] } ∧
    (opCancelled init none = false ∧ envGen.generateOk "g" "m" = false) ∧
    onGenerateThumbnailReady envGen init ⟨"g", "m", 1⟩ none =
      { init with logs := [(LogSite.generateSite, LogLevel.warning)],
                  ops := [AsyncOp.createFailed ⟨"g", "m", 1⟩ none] } := by
  have h := generate_failure_handling
  exact ⟨rfl,
         h.1 envA { init with cancel := some 1 } ⟨"g", "m", 1⟩ (some 0) rfl,
         ⟨rfl, rfl⟩,
         h.2.1 envGen init ⟨"g", "m", 1⟩ none rfl rfl⟩

/-- **C9** (confirmed).  Starting a new request (`handle_thumbnail_files` or
`handle_thumbnail_directory`) and `handle_stop_thumbnailing` leave the
accumulated batch counter `self->len`, the accumulated dict and the emitted
events unchanged (they clear only the queue and replace or drop the
cancellable); concretely, a save buffered before a request switch is
included, together with the later result, in the next emitted
`ThumbnailingDone` event. -/
theorem request_switch_frame :
    (∀ (s : St) (uris : List String),
      (handleThumbnailFiles s uris).len = s.len ∧
      (handleThumbnailFiles s uris).thumbnails = s.thumbnails ∧
      (handleThumbnailFiles s uris).events = s.events) ∧
    (∀ (s : St) (d : String),
      (handleThumbnailDirectory s d).len = s.len ∧
      (handleThumbnailDirectory s d).thumbnails = s.thumbnails ∧
      (handleThumbnailDirectory s d).events = s.events) ∧
    (∀ s : St,
      (handleStopThumbnailing s).len = s.len ∧
      (handleStopThumbnailing s).thumbnails = s.thumbnails ∧
      (handleStopThumbnailing s).events = s.events) ∧
    (run envA trC9 init).events = [([("a", "t:a"), ("x", "t:x")], 2)] := by
  refine ⟨?_, fun s d => ⟨rfl, rfl, rfl⟩, fun s => ⟨rfl, rfl, rfl⟩, rfl⟩
  intro s uris
  simp only [handleThumbnailFiles]
  exact ⟨processQueue_len CONCURRENCY_LIMIT _, processQueue_thumbnails CONCURRENCY_LIMIT _,
         processQueue_events CONCURRENCY_LIMIT _⟩

/-- **C10** (confirmed).  `handle_thumbnail_files` with an empty URI list:
the full state equality shows it clears the queue, activates a fresh
cancellable, starts no pipeline (the outstanding operations are unchanged:
the initial `process_queue (CONCURRENCY_LIMIT)` pops nothing from the empty
queue) and completes with `accepted`; and any previously active cancellable
is superseded, so completions tagged with it are delivered cancelled. -/
theorem thumbnail_files_empty_request :
    (∀ s : St, handleThumbnailFiles s [] =
      { s with queue := [], cancel := some s.nextTok, nextTok := s.nextTok + 1,
               replies := s.replies ++ [(s.nextInv, Reply.accepted)],
               nextInv := s.nextInv + 1 }) ∧
    (∀ (s : St) (t : Nat), s.cancel = some t → t ≠ s.nextTok →
      opCancelled (handleThumbnailFiles s []) (some t) = true) := by
  constructor
  · intro s
    rfl
  · intro s t h1 h2
    show (if (some s.nextTok = some t) then false else true) = true
    rw [if_neg]
    intro hh
    exact h2 (Option.some.inj hh).symm

/-- Witness for `thumbnail_files_empty_request`: an empty `ThumbnailFiles`
request arriving after a one-file request. -/
theorem thumbnail_files_empty_request_witness :
    handleThumbnailFiles sC1w [] =
      { sC1w with queue := [], cancel := some sC1w.nextTok, nextTok := sC1w.nextTok + 1,
                  replies := sC1w.replies ++ [(sC1w.nextInv, Reply.accepted)],
                  nextInv := sC1w.nextInv + 1 } ∧
    (sC1w.cancel = some 1 ∧ (1 : Nat) ≠ sC1w.nextTok) ∧
    opCancelled (handleThumbnailFiles sC1w []) (some 1) = true :=
  ⟨thumbnail_files_empty_request.1 sC1w,
   ⟨rfl, by decide⟩,
   thumbnail_files_empty_request.2 sC1w 1 rfl (by decide)⟩
